import Mathlib

/-!
Verification of the `salt-azure` AzureARM modules.

The repository is a set of Salt execution modules (`salt/_modules/azurearm_*.py`)
and state modules (`salt/_states/azurearm_network.py`).  Each execution function
wraps one Azure SDK operation; each state function fetches current state through
an execution function, diffs it against the desired arguments, and calls the
mutating execution function only when a difference is found.

The embedding below is shallow: Python values are modelled by `PyVal`
(strings, booleans, None, lists, dicts-as-association-lists); the SDK and the
host-runtime collaborators (`__utils__`, `__salt__`) are modelled as explicit
parameters — an execution function takes the outcome of its single SDK call as
an argument and returns its result together with the list of SDK calls it
issued, and a state function takes the results of the execution calls it makes
as arguments and reports whether it invoked the mutating call.
-/

/-- A Python value as used by these modules: strings, booleans, `None`,
lists, and dicts (modelled as association lists in insertion order). -/
inductive PyVal where
  | vstr  : String → PyVal
  | vbool : Bool → PyVal
  | vnone : PyVal
  | vlist : List PyVal → PyVal
  | vdict : List (String × PyVal) → PyVal
deriving Repr

/-- Key membership in a dict (`'k' in d`); non-dicts have no keys. -/
def hasKey : PyVal → String → Bool
  | .vdict d, k => d.any (fun p => p.1 == k)
  | _, _ => false

/-- Dict lookup returning the first binding (`d[k]` when present). -/
def dictGet : PyVal → String → Option PyVal
  | .vdict d, k => (d.find? (fun p => p.1 == k)).map (fun p => p.2)
  | _, _ => none

/-- `d.get(k, default)` on a dict value. -/
def pyGet (v : PyVal) (k : String) (dflt : PyVal) : PyVal :=
  (dictGet v k).getD dflt

/-- Python truthiness for the values this code branches on. -/
def pyTruthy : PyVal → Bool
  | .vstr s => !s.isEmpty
  | .vbool b => b
  | .vnone => false
  | .vlist l => !l.isEmpty
  | .vdict d => !d.isEmpty

/-- Truthiness of an optional lookup result (`None` when missing). -/
def pyTruthyOpt : Option PyVal → Bool
  | none => false
  | some v => pyTruthy v

/-- The string elements of a Python list value (the fields this code
compares this way — `dns_servers`, `address_prefixes` — are lists of
strings in the SDK's `as_dict()` output). -/
def pyStrList : PyVal → List String
  | .vlist l => l.filterMap (fun v => match v with | .vstr s => some s | _ => none)
  | _ => []

/-- `set(a).symmetric_difference(set(b))` is non-empty. -/
def symmDiffNonempty (a b : List String) : Bool :=
  a.any (fun x => !b.contains x) || b.any (fun x => !a.contains x)

/-- Python `==` between a bool and an optional looked-up value
(`.get` returns `None` when the key is missing; a bool equals neither
`None` nor a value of another of these types). -/
def pyEqBool (b : Bool) : Option PyVal → Bool
  | some (.vbool c) => b == c
  | _ => false

/-- `tags or {}` for an optional tags dict argument. -/
def tagsOr : Option PyVal → PyVal
  | none => .vdict []
  | some t => if pyTruthy t then t else .vdict []

/-- An optional list-of-strings argument as the Python value that was passed
(`None` when absent). -/
def optListPy : Option (List String) → PyVal
  | none => .vnone
  | some l => .vlist (l.map .vstr)

/-- An optional bool argument as the Python value (`None` when absent). -/
def optBoolPy : Option Bool → PyVal
  | none => .vnone
  | some b => .vbool b

/-- Python `str()` of the values interpolated into comments by this code
(error messages are strings; `format` renders `None` as `"None"` and
booleans capitalised; the container cases do not occur on the executed
paths, where only strings reach the formatter). -/
def pyStrOf : PyVal → String
  | .vstr s => s
  | .vnone => "None"
  | .vbool true => "True"
  | .vbool false => "False"
  | .vlist _ => "[...]"
  | .vdict _ => "{...}"

/-! ## Execution module embedding (`salt/_modules/azurearm_network.py`,
`salt/_modules/azurearm_resource.py`)

Each function performs one SDK call through an authenticated client.  The
SDK call's outcome is a parameter: either a successful return value (the
`as_dict()` / `paged_object_to_list` materialisation, or the boolean of
`check_existence`, or the completion of a long-running `delete`), or the
SDK raising `CloudError` with message `str(exc)`. -/

/-- The outcome of the single SDK operation an execution function performs. -/
inductive SDKOutcome where
  | ok (v : PyVal)
  | cloudError (m : String)

/-- A record of one SDK operation invocation: the operation called and the
keyword arguments passed to it. -/
structure SDKCall where
  operation : String
  args : List (String × String)
deriving Repr

/-- The `{'error': str(exc)}` mapping produced on a caught `CloudError`. -/
def errDict (m : String) : PyVal := .vdict [("error", .vstr m)]

/-- `check_dns_name_availability(name, region, **kwargs)`: calls
`netconn.check_dns_name_availability(location=region, domain_name_label=name)`,
returns `result.as_dict()` on success and `{'error': str(exc)}` on
`CloudError`.  Result paired with the list of SDK calls issued. -/
def check_dns_name_availability (name region : String) (outcome : SDKOutcome) :
    PyVal × List SDKCall :=
  (match outcome with
    | .ok v => v
    | .cloudError m => errDict m,
   [⟨"check_dns_name_availability", [("location", region), ("domain_name_label", name)]⟩])

/-- `security_rule_get(security_rule, security_group, resource_group, **kwargs)`:
calls `netconn.security_rules.get(...)` once, returns `secrule.as_dict()` or
`{'error': str(exc)}`. -/
def security_rule_get (security_rule security_group resource_group : String)
    (outcome : SDKOutcome) : PyVal × List SDKCall :=
  (match outcome with
    | .ok v => v
    | .cloudError m => errDict m,
   [⟨"security_rules.get",
     [("network_security_group_name", security_group),
      ("resource_group_name", resource_group),
      ("security_rule_name", security_rule)]⟩])

/-- `security_rules_list(security_group, resource_group, **kwargs)`: calls
`netconn.security_rules.list(...)`, materialises the paged result with
`paged_object_to_list` (a Python list of dicts) and returns it, or
`{'error': str(exc)}` on `CloudError`. -/
def security_rules_list (security_group resource_group : String)
    (outcome : SDKOutcome) : PyVal × List SDKCall :=
  (match outcome with
    | .ok v => v
    | .cloudError m => errDict m,
   [⟨"security_rules.list",
     [("network_security_group_name", security_group),
      ("resource_group_name", resource_group)]⟩])

/-- `security_rule_delete(security_rule, security_group, resource_group, **kwargs)`:
`result = False`; calls `netconn.security_rules.delete(...)` and waits; on
success `result = True`; on `CloudError` the error is logged and the function
returns the still-`False` result (no `{'error': ...}` mapping). -/
def security_rule_delete (security_rule security_group resource_group : String)
    (outcome : SDKOutcome) : PyVal × List SDKCall :=
  (match outcome with
    | .ok _ => .vbool true
    | .cloudError _ => .vbool false,
   [⟨"security_rules.delete",
     [("network_security_group_name", security_group),
      ("resource_group_name", resource_group),
      ("security_rule_name", security_rule)]⟩])

/-- `resource_group_check_existence(name, **kwargs)`
(`salt/_modules/azurearm_resource.py`): `result = False`; calls
`resconn.resource_groups.check_existence(name)` whose return value (a bool)
becomes the result; on `CloudError` logs and returns the still-`False`
result. -/
def resource_group_check_existence (name : String) (outcome : SDKOutcome) :
    PyVal × List SDKCall :=
  (match outcome with
    | .ok v => v
    | .cloudError _ => .vbool false,
   [⟨"resource_groups.check_existence", [("name", name)]⟩])

/-- Index a list of resource-group dicts by their `'name'` entry, as the
`for group in groups: result[group['name']] = group` loop does; `none`
models the uncaught `KeyError`/type error when an element has no string
name (the SDK's `as_dict()` always provides one). -/
def rgIndex : List PyVal → Option (List (String × PyVal))
  | [] => some []
  | g :: gs =>
    match dictGet g "name" with
    | some (.vstr s) => (rgIndex gs).map (fun r => (s, g) :: r)
    | _ => none

/-- `resource_groups_list(**kwargs)` (`salt/_modules/azurearm_resource.py`):
materialises `resconn.resource_groups.list()` and builds a dict keyed by each
group's name, or returns `{'error': str(exc)}` on `CloudError`.  The outer
`Option` is `none` only when an element lacks a string name (an exception
this function does not catch). -/
def resource_groups_list (outcome : SDKOutcome) :
    Option PyVal × List SDKCall :=
  (match outcome with
    | .ok (.vlist groups) => (rgIndex groups).map .vdict
    | .ok v => some v
    | .cloudError m => some (errDict m),
   [⟨"resource_groups.list", []⟩])

/-- `default_security_rules_list(security_group, resource_group, **kwargs)`:
calls `network_security_group_get` (its result is the parameter here); if
that result contains `'error'` it is returned unchanged; otherwise
`result = secgroup['default_security_rules']`, with the `KeyError` on a
missing key caught and returned as `{'error': str(exc)}` — Python's
`str` of that `KeyError` is the quoted key. -/
def default_security_rules_list (secgroup : PyVal) : PyVal :=
  if hasKey secgroup "error" then secgroup
  else
    match dictGet secgroup "default_security_rules" with
    | some v => v
    | none => errDict "'default_security_rules'"

/-! ## `security_rule_create_or_update`

The function first walks the four exclusive parameter pairs
(`source_port_ranges`/`source_port_range`, `source_address_prefixes`/
`source_address_prefix`, `destination_port_ranges`/`destination_port_range`,
`destination_address_prefixes`/`destination_address_prefix`) in order,
returning `False` at the first pair where neither member is truthy.  When the
plural member is truthy the source then runs `exec('<singular> = None')`;
under Python 3 that statement assigns into a throwaway locals mapping and
does not rebind the enclosing function's local, so it has no observable
effect and the original singular value survives to the object-model call.
It then builds a `SecurityRule` object model from all fourteen keyword
arguments (a `TypeError` there is caught and returned as an error mapping)
and performs the `security_rules.create_or_update` SDK call, converting
`CloudError` and `SerializationError` into error mappings. -/

/-- The non-credential arguments of `security_rule_create_or_update`.
Plural members are lists of strings, singular members strings; `none`
models an argument left at its `None` default. -/
structure SRArgs where
  name : String
  access : String
  direction : String
  priority : Nat
  protocol : String
  security_group : String
  resource_group : String
  source_address_prefix : Option String := none
  destination_address_prefix : Option String := none
  source_port_range : Option String := none
  destination_port_range : Option String := none
  source_address_prefixes : Option (List String) := none
  destination_address_prefixes : Option (List String) := none
  source_port_ranges : Option (List String) := none
  destination_port_ranges : Option (List String) := none
deriving Repr

/-- Truthiness of an optional list argument (`None` and `[]` are falsy). -/
def truthyL : Option (List String) → Bool
  | none => false
  | some l => !l.isEmpty

/-- Truthiness of an optional string argument (`None` and `''` are falsy). -/
def truthyS : Option String → Bool
  | none => false
  | some s => !s.isEmpty

/-- The exclusive-parameter loop succeeds: each of the four pairs, checked
in source order, has at least one truthy member (the loop returns `False`
at the first pair failing this; its `exec`-based clearing of the singular
is a no-op, so the loop has no other effect). -/
def exclusiveCheck (a : SRArgs) : Bool :=
  (truthyL a.source_port_ranges || truthyS a.source_port_range)
  && (truthyL a.source_address_prefixes || truthyS a.source_address_prefix)
  && (truthyL a.destination_port_ranges || truthyS a.destination_port_range)
  && (truthyL a.destination_address_prefixes || truthyS a.destination_address_prefix)

/-- The keyword arguments passed to
`create_object_model('network', 'SecurityRule', ...)` — the function's
current local values at the call site.  Because the `exec` statements do
not rebind locals, every field is the argument exactly as passed in. -/
structure SecurityRuleModelArgs where
  name : String
  access : String
  direction : String
  priority : Nat
  protocol : String
  source_port_ranges : Option (List String)
  source_port_range : Option String
  source_address_prefixes : Option (List String)
  source_address_prefix : Option String
  destination_port_ranges : Option (List String)
  destination_port_range : Option String
  destination_address_prefixes : Option (List String)
  destination_address_prefix : Option String
deriving Repr

/-- The object-model arguments actually forwarded by
`security_rule_create_or_update`: the arguments verbatim. -/
def srModelArgs (a : SRArgs) : SecurityRuleModelArgs :=
  { name := a.name, access := a.access, direction := a.direction,
    priority := a.priority, protocol := a.protocol,
    source_port_ranges := a.source_port_ranges,
    source_port_range := a.source_port_range,
    source_address_prefixes := a.source_address_prefixes,
    source_address_prefix := a.source_address_prefix,
    destination_port_ranges := a.destination_port_ranges,
    destination_port_range := a.destination_port_range,
    destination_address_prefixes := a.destination_address_prefixes,
    destination_address_prefix := a.destination_address_prefix }

/-- Outcome of the `security_rules.create_or_update` SDK call: success
(`as_dict()` of the polled result), `CloudError`, or `SerializationError`. -/
inductive CreateOutcome where
  | ok (d : PyVal)
  | cloudError (m : String)
  | serializationError (m : String)

/-- Result record of `security_rule_create_or_update`: the returned value,
the object-model call made (if reached) and whether the SDK
`create_or_update` operation was invoked. -/
structure SRCreateResult where
  result : PyVal
  modelCall : Option SecurityRuleModelArgs
  createCalled : Bool
deriving Repr

/-- `security_rule_create_or_update`: exclusive-pair validation (returning
`False` when a pair is entirely absent), object-model construction
(`TypeError` → error mapping), then the single SDK call (`CloudError` and
`SerializationError` → error mappings, success → `as_dict()`).
`buildOutcome = some m` models `create_object_model` raising
`TypeError` with message `m`. -/
def security_rule_create_or_update (a : SRArgs)
    (buildOutcome : Option String) (outcome : CreateOutcome) : SRCreateResult :=
  if !exclusiveCheck a then
    { result := .vbool false, modelCall := none, createCalled := false }
  else
    match buildOutcome with
    | some m =>
      { result := errDict ("The object model could not be built. (" ++ m ++ ")"),
        modelCall := some (srModelArgs a), createCalled := false }
    | none =>
      { result :=
          match outcome with
          | .ok d => d
          | .cloudError m => errDict m
          | .serializationError m =>
            errDict ("The object model could not be parsed. (" ++ m ++ ")"),
        modelCall := some (srModelArgs a), createCalled := true }

/-! ## State module embedding (`salt/_states/azurearm_network.py`)

A state function returns a `ret` dict `{name, result, changes, comment}`
where `result` is `True`, `False` or `None` (dry-run).  The results of the
execution-module calls it makes (`*_get`, `*_create_or_update`, `*_delete`)
are parameters, as are the collaborator functions `dictdiffer.deep_diff`
and `azurearm.compare_list_of_dicts`; whether the mutating call was
reached is reported alongside the dict. -/

/-- The state return dict: `{'name': ..., 'result': ..., 'comment': ...,
'changes': ...}` with `result` being `True`/`False`/`None`. -/
structure StateRet where
  name : String
  result : Option Bool
  comment : String
  changes : PyVal
deriving Repr

/-- The five field comparisons of `virtual_network_present` on an existing
virtual network, accumulating `ret['changes']` entries in source order:
`tags` (via `dictdiffer.deep_diff`), `dns_servers` and `address_space`
(set symmetric differences), and the two protection flags (compared with
default `False` against the fetched value, whose missing key reads as
`None`). -/
def vnetChanges (address_prefixes : List String) (dns_servers : Option (List String))
    (tags : Option PyVal) (enable_ddos_protection enable_vm_protection : Option Bool)
    (deepDiff : PyVal → PyVal → PyVal) (vnet : PyVal) : List (String × PyVal) :=
  (let tag_changes := deepDiff (pyGet vnet "tags" (.vdict [])) (tagsOr tags)
   if pyTruthy tag_changes then [("tags", tag_changes)] else [])
  ++ (let old := pyGet (pyGet vnet "dhcp_options" (.vdict [])) "dns_servers" (.vlist [])
      if symmDiffNonempty (dns_servers.getD []) (pyStrList old) then
        [("dns_servers", .vdict [("old", old), ("new", optListPy dns_servers)])]
      else [])
  ++ (let old := pyGet (pyGet vnet "address_space" (.vdict [])) "address_prefixes" (.vlist [])
      if symmDiffNonempty address_prefixes (pyStrList old) then
        [("address_space", .vdict [("address_prefixes",
           .vdict [("old", old), ("new", .vlist (address_prefixes.map .vstr))])])]
      else [])
  ++ (if !pyEqBool (enable_ddos_protection.getD false) (dictGet vnet "enable_ddos_protection") then
        [("enable_ddos_protection", .vdict
          [("old", pyGet vnet "enable_ddos_protection" .vnone),
           ("new", optBoolPy enable_ddos_protection)])]
      else [])
  ++ (if !pyEqBool (enable_vm_protection.getD false) (dictGet vnet "enable_vm_protection") then
        [("enable_vm_protection", .vdict
          [("old", pyGet vnet "enable_vm_protection" .vnone),
           ("new", optBoolPy enable_vm_protection)])]
      else [])

/-- The `'changes'` dict recorded when the virtual network does not yet
exist: `{'old': {}, 'new': {...}}` describing the would-be resource. -/
def vnetNewChanges (name : String) (address_prefixes : List String)
    (resource_group : String) (dns_servers : Option (List String))
    (tags : Option PyVal) (enable_ddos_protection enable_vm_protection : Option Bool) : PyVal :=
  .vdict [("old", .vdict []),
          ("new", .vdict
            [("name", .vstr name),
             ("resource_group", .vstr resource_group),
             ("address_space", .vdict [("address_prefixes", .vlist (address_prefixes.map .vstr))]),
             ("dhcp_options", .vdict [("dns_servers", optListPy dns_servers)]),
             ("enable_ddos_protection", .vbool (enable_ddos_protection.getD false)),
             ("enable_vm_protection", .vbool (enable_vm_protection.getD false)),
             ("tags", tags.getD .vnone)])]

/-- `virtual_network_present(name, address_prefixes, resource_group,
dns_servers, tags, connection_auth, **kwargs)`.  Parameters beyond the
state arguments: `deepDiff` models the `dictdiffer.deep_diff` collaborator,
`test` models `__opts__['test']`, `getResult` the return of the
`virtual_network_get` execution call, `createResult` the return of
`virtual_network_create_or_update` if invoked.  Returns the `ret` dict and
whether the create/update execution function was invoked. -/
def virtual_network_present (name : String) (address_prefixes : List String)
    (resource_group : String) (dns_servers : Option (List String))
    (tags : Option PyVal) (enable_ddos_protection enable_vm_protection : Option Bool)
    (connection_auth : Option PyVal)
    (deepDiff : PyVal → PyVal → PyVal) (test : Bool)
    (getResult createResult : PyVal) : StateRet × Bool :=
  match connection_auth with
  | some (.vdict _) =>
    let vnet := getResult
    if !hasKey vnet "error" then
      let changes := vnetChanges address_prefixes dns_servers tags
        enable_ddos_protection enable_vm_protection deepDiff vnet
      if changes.isEmpty then
        (⟨name, some true, "Virtual network " ++ name ++ " is already present.",
          .vdict changes⟩, false)
      else if test then
        (⟨name, none, "Virtual network " ++ name ++ " would be updated.",
          .vdict changes⟩, false)
      else
        let created := createResult
        if !hasKey created "error" then
          (⟨name, some true, "Virtual network " ++ name ++ " has been created.",
            .vdict changes⟩, true)
        else
          (⟨name, some false,
            "Failed to create virtual network " ++ name ++ "! ("
              ++ pyStrOf (pyGet created "error" .vnone) ++ ")",
            .vdict changes⟩, true)
    else
      let changes := vnetNewChanges name address_prefixes resource_group
        dns_servers tags enable_ddos_protection enable_vm_protection
      if test then
        (⟨name, none, "Virtual network " ++ name ++ " would be created.", changes⟩, false)
      else
        let created := createResult
        if !hasKey created "error" then
          (⟨name, some true, "Virtual network " ++ name ++ " has been created.", changes⟩, true)
        else
          (⟨name, some false,
            "Failed to create virtual network " ++ name ++ "! ("
              ++ pyStrOf (pyGet created "error" .vnone) ++ ")",
            changes⟩, true)
  | _ =>
    (⟨name, some false,
      "Connection information must be specified via connection_auth dictionary!",
      .vdict []⟩, false)

/-- The field comparisons of `network_security_group_present` on an existing
group, accumulating `ret['changes']` in source order: `tags` via
`dictdiffer.deep_diff`, then (only when the `security_rules` argument is
truthy) the `azurearm.compare_list_of_dicts` collaborator's `'changes'`
entry.  The collaborator may instead report a `'comment'`, which aborts the
state; that path is handled in the state function itself. -/
def nsgChanges (tags : Option PyVal) (security_rules : Option PyVal)
    (deepDiff : PyVal → PyVal → PyVal)
    (compareListOfDicts : PyVal → PyVal → PyVal) (nsg : PyVal) : List (String × PyVal) :=
  (let tag_changes := deepDiff (pyGet nsg "tags" (.vdict [])) (tagsOr tags)
   if pyTruthy tag_changes then [("tags", tag_changes)] else [])
  ++ (if pyTruthyOpt security_rules then
        let comp_ret := compareListOfDicts (pyGet nsg "security_rules" (.vlist []))
          (security_rules.getD .vnone)
        if pyTruthyOpt (dictGet comp_ret "comment") then []
        else match dictGet comp_ret "changes" with
          | some c => if pyTruthy c then [("security_rules", c)] else []
          | none => []
      else [])

/-- The `'changes'` dict recorded when the security group does not yet
exist: `{'old': {}, 'new': {...}}`. -/
def nsgNewChanges (name resource_group : String) (tags security_rules : Option PyVal) : PyVal :=
  .vdict [("old", .vdict []),
          ("new", .vdict
            [("name", .vstr name),
             ("resource_group", .vstr resource_group),
             ("tags", tags.getD .vnone),
             ("security_rules", security_rules.getD .vnone)])]

/-- `network_security_group_present(name, resource_group, tags,
security_rules, connection_auth, **kwargs)`.  `deepDiff` and
`compareListOfDicts` model the `dictdiffer.deep_diff` and
`azurearm.compare_list_of_dicts` collaborators; `test` models
`__opts__['test']`; `getResult` / `createResult` the execution-call
results.  Returns the `ret` dict and whether
`network_security_group_create_or_update` was invoked. -/
def network_security_group_present (name resource_group : String)
    (tags security_rules : Option PyVal) (connection_auth : Option PyVal)
    (deepDiff : PyVal → PyVal → PyVal)
    (compareListOfDicts : PyVal → PyVal → PyVal) (test : Bool)
    (getResult createResult : PyVal) : StateRet × Bool :=
  match connection_auth with
  | some (.vdict _) =>
    let nsg := getResult
    if !hasKey nsg "error" then
      let tag_changes := deepDiff (pyGet nsg "tags" (.vdict [])) (tagsOr tags)
      let tagPart : List (String × PyVal) :=
        if pyTruthy tag_changes then [("tags", tag_changes)] else []
      if pyTruthyOpt security_rules &&
          pyTruthyOpt (dictGet (compareListOfDicts (pyGet nsg "security_rules" (.vlist []))
            (security_rules.getD .vnone)) "comment") then
        (⟨name, some false,
          "\"security_rules\" " ++ pyStrOf ((dictGet (compareListOfDicts
            (pyGet nsg "security_rules" (.vlist [])) (security_rules.getD .vnone))
            "comment").getD .vnone),
          .vdict tagPart⟩, false)
      else
        let changes := nsgChanges tags security_rules deepDiff compareListOfDicts nsg
        if changes.isEmpty then
          (⟨name, some true, "Network security group " ++ name ++ " is already present.",
            .vdict changes⟩, false)
        else if test then
          (⟨name, none, "Network security group " ++ name ++ " would be updated.",
            .vdict changes⟩, false)
        else
          let created := createResult
          if !hasKey created "error" then
            (⟨name, some true, "Network security group " ++ name ++ " has been created.",
              .vdict changes⟩, true)
          else
            (⟨name, some false,
              "Failed to create network security group " ++ name ++ "! ("
                ++ pyStrOf (pyGet created "error" .vnone) ++ ")",
              .vdict changes⟩, true)
    else
      let changes := nsgNewChanges name resource_group tags security_rules
      if test then
        (⟨name, none, "Network security group " ++ name ++ " would be created.", changes⟩, false)
      else
        let created := createResult
        if !hasKey created "error" then
          (⟨name, some true, "Network security group " ++ name ++ " has been created.", changes⟩, true)
        else
          (⟨name, some false,
            "Failed to create network security group " ++ name ++ "! ("
              ++ pyStrOf (pyGet created "error" .vnone) ++ ")",
            changes⟩, true)
  | _ =>
    (⟨name, some false,
      "Connection information must be specified via connection_auth dictionary!",
      .vdict []⟩, false)

/-- `virtual_network_absent(name, resource_group, connection_auth)`:
fetches the virtual network; an `'error'` in the result means "not found"
and reports success without deleting; dry-run reports the would-be
deletion; otherwise `virtual_network_delete` is invoked (its boolean
result is the `deleteResult` parameter).  Returns the `ret` dict and
whether the delete execution function was invoked. -/
def virtual_network_absent (name resource_group : String)
    (connection_auth : Option PyVal) (test : Bool)
    (getResult : PyVal) (deleteResult : Bool) : StateRet × Bool :=
  match connection_auth with
  | some (.vdict _) =>
    let vnet := getResult
    if hasKey vnet "error" then
      (⟨name, some true, "Virtual network " ++ name ++ " was not found.", .vdict []⟩, false)
    else if test then
      (⟨name, none, "Virtual network " ++ name ++ " would be deleted.",
        .vdict [("old", vnet), ("new", .vdict [])]⟩, false)
    else if deleteResult then
      (⟨name, some true, "Virtual network " ++ name ++ " has been deleted.",
        .vdict [("old", vnet), ("new", .vdict [])]⟩, true)
    else
      (⟨name, some false, "Failed to delete virtual network " ++ name ++ "!",
        .vdict []⟩, true)
  | _ =>
    (⟨name, some false,
      "Connection information must be specified via connection_auth dictionary!",
      .vdict []⟩, false)

/-- `network_security_group_absent(name, resource_group, connection_auth)`:
same shape as `virtual_network_absent` over
`network_security_group_get` / `network_security_group_delete`. -/
def network_security_group_absent (name resource_group : String)
    (connection_auth : Option PyVal) (test : Bool)
    (getResult : PyVal) (deleteResult : Bool) : StateRet × Bool :=
  match connection_auth with
  | some (.vdict _) =>
    let nsg := getResult
    if hasKey nsg "error" then
      (⟨name, some true, "Network security group " ++ name ++ " was not found.", .vdict []⟩, false)
    else if test then
      (⟨name, none, "Network security group " ++ name ++ " would be deleted.",
        .vdict [("old", nsg), ("new", .vdict [])]⟩, false)
    else if deleteResult then
      (⟨name, some true, "Network security group " ++ name ++ " has been deleted.",
        .vdict [("old", nsg), ("new", .vdict [])]⟩, true)
    else
      (⟨name, some false, "Failed to delete network security group " ++ name ++ "!",
        .vdict []⟩, true)
  | _ =>
    (⟨name, some false,
      "Connection information must be specified via connection_auth dictionary!",
      .vdict []⟩, false)

/-! ## Converged resource encodings

A remote resource that a first `present` call has converged to the desired
arguments: every field the diff step compares holds exactly the desired
value (the SDK's `as_dict()` surfaces them under the keys the state
function reads). -/

/-- A virtual network converged to the desired arguments of
`virtual_network_present`. -/
def vnetConverged (name : String) (address_prefixes : List String)
    (dns_servers : Option (List String)) (tags : Option PyVal)
    (enable_ddos_protection enable_vm_protection : Option Bool) : PyVal :=
  .vdict [("name", .vstr name),
          ("address_space", .vdict [("address_prefixes", .vlist (address_prefixes.map .vstr))]),
          ("dhcp_options", .vdict [("dns_servers", .vlist ((dns_servers.getD []).map .vstr))]),
          ("enable_ddos_protection", .vbool (enable_ddos_protection.getD false)),
          ("enable_vm_protection", .vbool (enable_vm_protection.getD false)),
          ("tags", tagsOr tags)]

/-- A network security group converged to the desired arguments of
`network_security_group_present`. -/
def nsgConverged (name : String) (tags security_rules : Option PyVal) : PyVal :=
  .vdict [("name", .vstr name),
          ("tags", tagsOr tags),
          ("security_rules", security_rules.getD (.vlist []))]

/-! ## Return-shape predicates and fixed test arguments -/

/-- The value is a Python mapping. -/
def isMapping : PyVal → Bool
  | .vdict _ => true
  | _ => false

/-- The value is a Python boolean. -/
def isBoolV : PyVal → Bool
  | .vbool _ => true
  | _ => false

/-- The value is a Python list. -/
def isListV : PyVal → Bool
  | .vlist _ => true
  | _ => false

/-- The return shape asserted by the spec's interface section: a mapping,
a boolean, or an `{'error': str}` mapping (itself a mapping). -/
def claimedShape (v : PyVal) : Bool := isMapping v || isBoolV v

/-- A concrete, fully-populated argument record for
`security_rule_create_or_update`, with every exclusive pair satisfied and
the first pair's plural and singular members both provided. -/
def srArgs0 : SRArgs :=
  { name := "testrule1", access := "allow", direction := "outbound",
    priority := 101, protocol := "tcp",
    security_group := "testnsg", resource_group := "testgroup",
    source_port_ranges := some ["100-200"], source_port_range := some "80",
    source_address_prefixes := none, source_address_prefix := some "*",
    destination_port_ranges := none, destination_port_range := some "1-1024",
    destination_address_prefixes := none, destination_address_prefix := some "internet" }

/-! ## Helper lemmas -/

/-- Extracting the strings of a list literally built from strings. -/
theorem pyStrList_map_vstr (l : List String) :
    pyStrList (.vlist (l.map .vstr)) = l := by
  induction l with
  | nil => rfl
  | cons x xs ih =>
    simpa [pyStrList, List.filterMap_cons] using ih

/-- A set's symmetric difference with itself is empty. -/
theorem symmDiffNonempty_self (l : List String) :
    symmDiffNonempty l l = false := by
  simp [symmDiffNonempty, List.any_eq_false]

/-- A bool equals itself under the Python comparison used by the diff. -/
theorem pyEqBool_self (b : Bool) : pyEqBool b (some (.vbool b)) = true := by
  simp [pyEqBool]

/-- On a converged virtual network the five comparisons of
`virtual_network_present` find nothing, provided the tag-diff collaborator
reports no difference between a dict and itself. -/
theorem vnetChanges_converged (name : String) (address_prefixes : List String)
    (dns_servers : Option (List String)) (tags : Option PyVal)
    (edp evp : Option Bool) (deepDiff : PyVal → PyVal → PyVal)
    (hdd : deepDiff (tagsOr tags) (tagsOr tags) = .vdict []) :
    vnetChanges address_prefixes dns_servers tags edp evp deepDiff
      (vnetConverged name address_prefixes dns_servers tags edp evp) = [] := by
  have h1 : pyGet (vnetConverged name address_prefixes dns_servers tags edp evp)
      "tags" (.vdict []) = tagsOr tags := rfl
  have h2 : pyGet (pyGet (vnetConverged name address_prefixes dns_servers tags edp evp)
      "dhcp_options" (.vdict [])) "dns_servers" (.vlist [])
      = .vlist ((dns_servers.getD []).map .vstr) := rfl
  have h3 : pyGet (pyGet (vnetConverged name address_prefixes dns_servers tags edp evp)
      "address_space" (.vdict [])) "address_prefixes" (.vlist [])
      = .vlist (address_prefixes.map .vstr) := rfl
  have h4 : dictGet (vnetConverged name address_prefixes dns_servers tags edp evp)
      "enable_ddos_protection" = some (.vbool (edp.getD false)) := rfl
  have h5 : dictGet (vnetConverged name address_prefixes dns_servers tags edp evp)
      "enable_vm_protection" = some (.vbool (evp.getD false)) := rfl
  rw [vnetChanges, h1, h2, h3, h4, h5, hdd]
  simp [pyStrList_map_vstr, symmDiffNonempty_self, pyEqBool_self, pyTruthy]

/-- On a converged network security group the comparisons of
`network_security_group_present` find nothing, provided the collaborators
report no difference between a value and itself. -/
theorem nsgChanges_converged (name : String) (tags security_rules : Option PyVal)
    (deepDiff compareListOfDicts : PyVal → PyVal → PyVal)
    (hdd : deepDiff (tagsOr tags) (tagsOr tags) = .vdict [])
    (hcld : ∀ v, compareListOfDicts v v = .vdict []) :
    nsgChanges tags security_rules deepDiff compareListOfDicts
      (nsgConverged name tags security_rules) = [] := by
  have h1 : pyGet (nsgConverged name tags security_rules) "tags" (.vdict [])
      = tagsOr tags := rfl
  have h2 : pyGet (nsgConverged name tags security_rules) "security_rules" (.vlist [])
      = security_rules.getD (.vlist []) := rfl
  rw [nsgChanges, h1, h2, hdd]
  cases security_rules with
  | none => rfl
  | some v =>
    simp only [Option.getD_some, pyTruthyOpt]
    cases hv : pyTruthy v with
    | false => rfl
    | true => simp [hcld v, dictGet, pyTruthy]

/-- C2: each "present" state function is idempotent.  After a first call has
converged the remote resource to the desired state (the fetched resource
agrees with the desired arguments on every compared field — encoded by
`vnetConverged` / `nsgConverged`), a second call with identical desired
arguments and test mode off returns result `True` with an empty `changes`
mapping and does not invoke the create-or-update execution function.  The
collaborator hypotheses say the dict-diff helpers report no difference
between a value and itself. -/
theorem present_second_call_idempotent
    (name : String) (address_prefixes : List String) (resource_group : String)
    (dns_servers : Option (List String)) (tags security_rules : Option PyVal)
    (edp evp : Option Bool) (ca : List (String × PyVal))
    (deepDiff compareListOfDicts : PyVal → PyVal → PyVal)
    (createResult : PyVal)
    (hdd : deepDiff (tagsOr tags) (tagsOr tags) = .vdict [])
    (hcld : ∀ v, compareListOfDicts v v = .vdict []) :
    ((virtual_network_present name address_prefixes resource_group dns_servers tags
        edp evp (some (.vdict ca)) deepDiff false
        (vnetConverged name address_prefixes dns_servers tags edp evp)
        createResult).1.result = some true
      ∧ (virtual_network_present name address_prefixes resource_group dns_servers tags
          edp evp (some (.vdict ca)) deepDiff false
          (vnetConverged name address_prefixes dns_servers tags edp evp)
          createResult).1.changes = .vdict []
      ∧ (virtual_network_present name address_prefixes resource_group dns_servers tags
          edp evp (some (.vdict ca)) deepDiff false
          (vnetConverged name address_prefixes dns_servers tags edp evp)
          createResult).2 = false)
    ∧ ((network_security_group_present name resource_group tags security_rules
          (some (.vdict ca)) deepDiff compareListOfDicts false
          (nsgConverged name tags security_rules) createResult).1.result = some true
      ∧ (network_security_group_present name resource_group tags security_rules
          (some (.vdict ca)) deepDiff compareListOfDicts false
          (nsgConverged name tags security_rules) createResult).1.changes = .vdict []
      ∧ (network_security_group_present name resource_group tags security_rules
          (some (.vdict ca)) deepDiff compareListOfDicts false
          (nsgConverged name tags security_rules) createResult).2 = false) := by
  have herr : hasKey (vnetConverged name address_prefixes dns_servers tags edp evp)
      "error" = false := rfl
  have herr2 : hasKey (nsgConverged name tags security_rules) "error" = false := rfl
  have hch := vnetChanges_converged name address_prefixes dns_servers tags edp evp deepDiff hdd
  have hch2 := nsgChanges_converged name tags security_rules deepDiff compareListOfDicts hdd hcld
  have hcomment : (pyTruthyOpt security_rules &&
      pyTruthyOpt (dictGet (compareListOfDicts
        (pyGet (nsgConverged name tags security_rules) "security_rules" (.vlist []))
        (security_rules.getD .vnone)) "comment")) = false := by
    cases security_rules with
    | none => rfl
    | some v =>
      have h2 : pyGet (nsgConverged name tags (some v)) "security_rules" (.vlist [])
          = v := rfl
      rw [h2]
      cases hv : pyTruthy v with
      | false => simp [pyTruthyOpt, hv]
      | true => simp [pyTruthyOpt, hv, hcld v, dictGet]
  constructor
  · simp only [virtual_network_present, herr, hch]
    exact ⟨rfl, rfl, rfl⟩
  · simp only [network_security_group_present, herr2, hcomment, hch2]
    exact ⟨rfl, rfl, rfl⟩

/-- Witness for `present_second_call_idempotent` at concrete arguments,
with collaborators that report no differences on equal inputs. -/
theorem present_second_call_idempotent_witness :
    ((virtual_network_present "vnet1" ["10.0.0.0/16"] "group1" (some ["8.8.8.8"])
        (some (.vdict [("contact_name", .vstr "Elmer Fudd Gantry")])) none none
        (some (.vdict [("subscription_id", .vstr "sub")]))
        (fun _ _ => .vdict []) false
        (vnetConverged "vnet1" ["10.0.0.0/16"] (some ["8.8.8.8"])
          (some (.vdict [("contact_name", .vstr "Elmer Fudd Gantry")])) none none)
        (.vdict [])).1.result = some true
      ∧ (virtual_network_present "vnet1" ["10.0.0.0/16"] "group1" (some ["8.8.8.8"])
          (some (.vdict [("contact_name", .vstr "Elmer Fudd Gantry")])) none none
          (some (.vdict [("subscription_id", .vstr "sub")]))
          (fun _ _ => .vdict []) false
          (vnetConverged "vnet1" ["10.0.0.0/16"] (some ["8.8.8.8"])
            (some (.vdict [("contact_name", .vstr "Elmer Fudd Gantry")])) none none)
          (.vdict [])).1.changes = .vdict []
      ∧ (virtual_network_present "vnet1" ["10.0.0.0/16"] "group1" (some ["8.8.8.8"])
          (some (.vdict [("contact_name", .vstr "Elmer Fudd Gantry")])) none none
          (some (.vdict [("subscription_id", .vstr "sub")]))
          (fun _ _ => .vdict []) false
          (vnetConverged "vnet1" ["10.0.0.0/16"] (some ["8.8.8.8"])
            (some (.vdict [("contact_name", .vstr "Elmer Fudd Gantry")])) none none)
          (.vdict [])).2 = false)
    ∧ ((network_security_group_present "vnet1" "group1"
          (some (.vdict [("contact_name", .vstr "Elmer Fudd Gantry")]))
          (some (.vlist [.vdict [("name", .vstr "nsg1_rule1")]]))
          (some (.vdict [("subscription_id", .vstr "sub")]))
          (fun _ _ => .vdict []) (fun _ _ => .vdict []) false
          (nsgConverged "vnet1" (some (.vdict [("contact_name", .vstr "Elmer Fudd Gantry")]))
            (some (.vlist [.vdict [("name", .vstr "nsg1_rule1")]])))
          (.vdict [])).1.result = some true
      ∧ (network_security_group_present "vnet1" "group1"
          (some (.vdict [("contact_name", .vstr "Elmer Fudd Gantry")]))
          (some (.vlist [.vdict [("name", .vstr "nsg1_rule1")]]))
          (some (.vdict [("subscription_id", .vstr "sub")]))
          (fun _ _ => .vdict []) (fun _ _ => .vdict []) false
          (nsgConverged "vnet1" (some (.vdict [("contact_name", .vstr "Elmer Fudd Gantry")]))
            (some (.vlist [.vdict [("name", .vstr "nsg1_rule1")]])))
          (.vdict [])).1.changes = .vdict []
      ∧ (network_security_group_present "vnet1" "group1"
          (some (.vdict [("contact_name", .vstr "Elmer Fudd Gantry")]))
          (some (.vlist [.vdict [("name", .vstr "nsg1_rule1")]]))
          (some (.vdict [("subscription_id", .vstr "sub")]))
          (fun _ _ => .vdict []) (fun _ _ => .vdict []) false
          (nsgConverged "vnet1" (some (.vdict [("contact_name", .vstr "Elmer Fudd Gantry")]))
            (some (.vlist [.vdict [("name", .vstr "nsg1_rule1")]])))
          (.vdict [])).2 = false) :=
  present_second_call_idempotent "vnet1" ["10.0.0.0/16"] "group1" (some ["8.8.8.8"])
    (some (.vdict [("contact_name", .vstr "Elmer Fudd Gantry")]))
    (some (.vlist [.vdict [("name", .vstr "nsg1_rule1")]])) none none
    [("subscription_id", .vstr "sub")]
    (fun _ _ => .vdict []) (fun _ _ => .vdict []) (.vdict [])
    rfl (fun _ => rfl)

/-- The changes list of `virtual_network_present` contains a key exactly
when the corresponding field comparison reports a difference. -/
theorem vnetChanges_keys (address_prefixes : List String)
    (dns_servers : Option (List String)) (tags : Option PyVal)
    (edp evp : Option Bool) (deepDiff : PyVal → PyVal → PyVal) (vnet : PyVal) :
    hasKey (.vdict (vnetChanges address_prefixes dns_servers tags edp evp deepDiff vnet)) "tags"
      = pyTruthy (deepDiff (pyGet vnet "tags" (.vdict [])) (tagsOr tags))
    ∧ hasKey (.vdict (vnetChanges address_prefixes dns_servers tags edp evp deepDiff vnet)) "dns_servers"
      = symmDiffNonempty (dns_servers.getD [])
          (pyStrList (pyGet (pyGet vnet "dhcp_options" (.vdict [])) "dns_servers" (.vlist [])))
    ∧ hasKey (.vdict (vnetChanges address_prefixes dns_servers tags edp evp deepDiff vnet)) "address_space"
      = symmDiffNonempty address_prefixes
          (pyStrList (pyGet (pyGet vnet "address_space" (.vdict [])) "address_prefixes" (.vlist [])))
    ∧ hasKey (.vdict (vnetChanges address_prefixes dns_servers tags edp evp deepDiff vnet)) "enable_ddos_protection"
      = !pyEqBool (edp.getD false) (dictGet vnet "enable_ddos_protection")
    ∧ hasKey (.vdict (vnetChanges address_prefixes dns_servers tags edp evp deepDiff vnet)) "enable_vm_protection"
      = !pyEqBool (evp.getD false) (dictGet vnet "enable_vm_protection") := by
  cases h1 : pyTruthy (deepDiff (pyGet vnet "tags" (.vdict [])) (tagsOr tags)) <;>
  cases h2 : symmDiffNonempty (dns_servers.getD [])
      (pyStrList (pyGet (pyGet vnet "dhcp_options" (.vdict [])) "dns_servers" (.vlist []))) <;>
  cases h3 : symmDiffNonempty address_prefixes
      (pyStrList (pyGet (pyGet vnet "address_space" (.vdict [])) "address_prefixes" (.vlist []))) <;>
  cases h4 : pyEqBool (edp.getD false) (dictGet vnet "enable_ddos_protection") <;>
  cases h5 : pyEqBool (evp.getD false) (dictGet vnet "enable_vm_protection") <;>
    simp [vnetChanges, hasKey, h1, h2, h3, h4, h5]

/-- C7: `virtual_network_present` compares each mutable field of the
existing resource against the desired arguments (the changes mapping
contains a field's key exactly when that field's comparison reports a
difference), and when every compared field equals the desired value it
returns result `True` with empty changes and does not invoke
`virtual_network_create_or_update`. -/
theorem virtual_network_present_diff_skip
    (name : String) (address_prefixes : List String) (resource_group : String)
    (dns_servers : Option (List String)) (tags : Option PyVal)
    (edp evp : Option Bool) (ca : List (String × PyVal))
    (deepDiff : PyVal → PyVal → PyVal) (R createResult vnet : PyVal)
    (hErr : hasKey R "error" = false)
    (hTags : pyTruthy (deepDiff (pyGet R "tags" (.vdict [])) (tagsOr tags)) = false)
    (hDns : symmDiffNonempty (dns_servers.getD [])
      (pyStrList (pyGet (pyGet R "dhcp_options" (.vdict [])) "dns_servers" (.vlist []))) = false)
    (hAddr : symmDiffNonempty address_prefixes
      (pyStrList (pyGet (pyGet R "address_space" (.vdict [])) "address_prefixes" (.vlist []))) = false)
    (hDdos : pyEqBool (edp.getD false) (dictGet R "enable_ddos_protection") = true)
    (hVm : pyEqBool (evp.getD false) (dictGet R "enable_vm_protection") = true) :
    (hasKey (.vdict (vnetChanges address_prefixes dns_servers tags edp evp deepDiff vnet)) "tags"
        = pyTruthy (deepDiff (pyGet vnet "tags" (.vdict [])) (tagsOr tags))
      ∧ hasKey (.vdict (vnetChanges address_prefixes dns_servers tags edp evp deepDiff vnet)) "dns_servers"
        = symmDiffNonempty (dns_servers.getD [])
            (pyStrList (pyGet (pyGet vnet "dhcp_options" (.vdict [])) "dns_servers" (.vlist [])))
      ∧ hasKey (.vdict (vnetChanges address_prefixes dns_servers tags edp evp deepDiff vnet)) "address_space"
        = symmDiffNonempty address_prefixes
            (pyStrList (pyGet (pyGet vnet "address_space" (.vdict [])) "address_prefixes" (.vlist [])))
      ∧ hasKey (.vdict (vnetChanges address_prefixes dns_servers tags edp evp deepDiff vnet)) "enable_ddos_protection"
        = !pyEqBool (edp.getD false) (dictGet vnet "enable_ddos_protection")
      ∧ hasKey (.vdict (vnetChanges address_prefixes dns_servers tags edp evp deepDiff vnet)) "enable_vm_protection"
        = !pyEqBool (evp.getD false) (dictGet vnet "enable_vm_protection"))
    ∧ ((virtual_network_present name address_prefixes resource_group dns_servers tags
          edp evp (some (.vdict ca)) deepDiff false R createResult).1.result = some true
      ∧ (virtual_network_present name address_prefixes resource_group dns_servers tags
          edp evp (some (.vdict ca)) deepDiff false R createResult).1.changes = .vdict []
      ∧ (virtual_network_present name address_prefixes resource_group dns_servers tags
          edp evp (some (.vdict ca)) deepDiff false R createResult).2 = false) := by
  refine ⟨vnetChanges_keys address_prefixes dns_servers tags edp evp deepDiff vnet, ?_⟩
  have hch : vnetChanges address_prefixes dns_servers tags edp evp deepDiff R = [] := by
    simp [vnetChanges, hTags, hDns, hAddr, hDdos, hVm]
  simp only [virtual_network_present, hErr, hch]
  exact ⟨rfl, rfl, rfl⟩

/-- Witness for `virtual_network_present_diff_skip`: a fetched resource
matching the desired arguments field by field. -/
theorem virtual_network_present_diff_skip_witness :
    (hasKey (.vdict (vnetChanges ["10.0.0.0/16"] none none none none
          (fun _ _ => .vdict []) (.vdict []))) "tags"
        = pyTruthy ((fun (_ _ : PyVal) => PyVal.vdict [])
            (pyGet (.vdict []) "tags" (.vdict [])) (tagsOr none))
      ∧ hasKey (.vdict (vnetChanges ["10.0.0.0/16"] none none none none
          (fun _ _ => .vdict []) (.vdict []))) "dns_servers"
        = symmDiffNonempty ((none : Option (List String)).getD [])
            (pyStrList (pyGet (pyGet (.vdict []) "dhcp_options" (.vdict [])) "dns_servers" (.vlist [])))
      ∧ hasKey (.vdict (vnetChanges ["10.0.0.0/16"] none none none none
          (fun _ _ => .vdict []) (.vdict []))) "address_space"
        = symmDiffNonempty ["10.0.0.0/16"]
            (pyStrList (pyGet (pyGet (.vdict []) "address_space" (.vdict [])) "address_prefixes" (.vlist [])))
      ∧ hasKey (.vdict (vnetChanges ["10.0.0.0/16"] none none none none
          (fun _ _ => .vdict []) (.vdict []))) "enable_ddos_protection"
        = !pyEqBool ((none : Option Bool).getD false) (dictGet (.vdict []) "enable_ddos_protection")
      ∧ hasKey (.vdict (vnetChanges ["10.0.0.0/16"] none none none none
          (fun _ _ => .vdict []) (.vdict []))) "enable_vm_protection"
        = !pyEqBool ((none : Option Bool).getD false) (dictGet (.vdict []) "enable_vm_protection"))
    ∧ ((virtual_network_present "vnet1" ["10.0.0.0/16"] "group1" none none
          none none (some (.vdict [])) (fun _ _ => .vdict []) false
          (vnetConverged "vnet1" ["10.0.0.0/16"] none none none none)
          (.vdict [])).1.result = some true
      ∧ (virtual_network_present "vnet1" ["10.0.0.0/16"] "group1" none none
          none none (some (.vdict [])) (fun _ _ => .vdict []) false
          (vnetConverged "vnet1" ["10.0.0.0/16"] none none none none)
          (.vdict [])).1.changes = .vdict []
      ∧ (virtual_network_present "vnet1" ["10.0.0.0/16"] "group1" none none
          none none (some (.vdict [])) (fun _ _ => .vdict []) false
          (vnetConverged "vnet1" ["10.0.0.0/16"] none none none none)
          (.vdict [])).2 = false) :=
  virtual_network_present_diff_skip "vnet1" ["10.0.0.0/16"] "group1" none none
    none none [] (fun _ _ => .vdict [])
    (vnetConverged "vnet1" ["10.0.0.0/16"] none none none none) (.vdict []) (.vdict [])
    rfl rfl (by decide) (by decide) rfl rfl

/-- C5: the "absent" state functions are idempotent.  When the initial get
call reports an error (the resource is not found), both
`virtual_network_absent` and `network_security_group_absent` return result
`True` with a "was not found" comment and empty changes, and do not invoke
the delete execution function. -/
theorem absent_not_found_idempotent
    (name resource_group : String) (ca : List (String × PyVal))
    (test deleteResult : Bool) (R : PyVal)
    (hErr : hasKey R "error" = true) :
    virtual_network_absent name resource_group (some (.vdict ca)) test R deleteResult
      = (⟨name, some true, "Virtual network " ++ name ++ " was not found.", .vdict []⟩, false)
    ∧ network_security_group_absent name resource_group (some (.vdict ca)) test R deleteResult
      = (⟨name, some true, "Network security group " ++ name ++ " was not found.", .vdict []⟩, false) := by
  constructor
  · simp [virtual_network_absent, hErr]
  · simp [network_security_group_absent, hErr]

/-- Witness for `absent_not_found_idempotent` on a concrete error result. -/
theorem absent_not_found_idempotent_witness :
    virtual_network_absent "other_vnet" "my_rg" (some (.vdict [("subscription_id", .vstr "sub")]))
        false (.vdict [("error", .vstr "ResourceNotFound")]) true
      = (⟨"other_vnet", some true, "Virtual network other_vnet was not found.", .vdict []⟩, false)
    ∧ network_security_group_absent "other_vnet" "my_rg" (some (.vdict [("subscription_id", .vstr "sub")]))
        false (.vdict [("error", .vstr "ResourceNotFound")]) true
      = (⟨"other_vnet", some true, "Network security group other_vnet was not found.", .vdict []⟩, false) :=
  absent_not_found_idempotent "other_vnet" "my_rg" [("subscription_id", .vstr "sub")]
    false true (.vdict [("error", .vstr "ResourceNotFound")]) rfl

/-- C9: in the "absent" state functions, an error result from the get call
with any message whatsoever — including one describing an authentication
or connection failure rather than a missing resource — is treated as
absence: the function reports result `True` with a "was not found" comment
and never invokes the delete execution function. -/
theorem absent_treats_any_error_as_absence
    (name resource_group m : String) (ca : List (String × PyVal))
    (test deleteResult : Bool) :
    ((virtual_network_absent name resource_group (some (.vdict ca)) test
        (.vdict [("error", .vstr m)]) deleteResult).1.result = some true
      ∧ (virtual_network_absent name resource_group (some (.vdict ca)) test
          (.vdict [("error", .vstr m)]) deleteResult).1.comment
        = "Virtual network " ++ name ++ " was not found."
      ∧ (virtual_network_absent name resource_group (some (.vdict ca)) test
          (.vdict [("error", .vstr m)]) deleteResult).2 = false)
    ∧ ((network_security_group_absent name resource_group (some (.vdict ca)) test
          (.vdict [("error", .vstr m)]) deleteResult).1.result = some true
      ∧ (network_security_group_absent name resource_group (some (.vdict ca)) test
          (.vdict [("error", .vstr m)]) deleteResult).1.comment
        = "Network security group " ++ name ++ " was not found."
      ∧ (network_security_group_absent name resource_group (some (.vdict ca)) test
          (.vdict [("error", .vstr m)]) deleteResult).2 = false) :=
  ⟨⟨rfl, rfl, rfl⟩, ⟨rfl, rfl, rfl⟩⟩

/-- Witness for `absent_treats_any_error_as_absence` with an
authentication-failure message. -/
theorem absent_treats_any_error_as_absence_witness :
    ((virtual_network_absent "vnet1" "group1" (some (.vdict [])) false
        (.vdict [("error", .vstr "AuthenticationFailed: credentials invalid")]) true).1.result = some true
      ∧ (virtual_network_absent "vnet1" "group1" (some (.vdict [])) false
          (.vdict [("error", .vstr "AuthenticationFailed: credentials invalid")]) true).1.comment
        = "Virtual network vnet1 was not found."
      ∧ (virtual_network_absent "vnet1" "group1" (some (.vdict [])) false
          (.vdict [("error", .vstr "AuthenticationFailed: credentials invalid")]) true).2 = false)
    ∧ ((network_security_group_absent "vnet1" "group1" (some (.vdict [])) false
          (.vdict [("error", .vstr "AuthenticationFailed: credentials invalid")]) true).1.result = some true
      ∧ (network_security_group_absent "vnet1" "group1" (some (.vdict [])) false
          (.vdict [("error", .vstr "AuthenticationFailed: credentials invalid")]) true).1.comment
        = "Network security group vnet1 was not found."
      ∧ (network_security_group_absent "vnet1" "group1" (some (.vdict [])) false
          (.vdict [("error", .vstr "AuthenticationFailed: credentials invalid")]) true).2 = false) :=
  absent_treats_any_error_as_absence "vnet1" "group1"
    "AuthenticationFailed: credentials invalid" [] false true

/-- C6 counterexample: in test mode (`__opts__['test']` true) a "present"
state function does not always return result `None` — on an input where
the resource already matches the desired state it returns result `True`
(with empty changes), because the no-changes check runs before the
dry-run check. -/
theorem present_test_mode_counterexample :
    (virtual_network_present "vnet1" ["10.0.0.0/16"] "group1" none none none none
        (some (.vdict [])) (fun _ _ => .vdict []) true
        (vnetConverged "vnet1" ["10.0.0.0/16"] none none none none)
        (.vdict [])).1.result = some true
    ∧ (virtual_network_present "vnet1" ["10.0.0.0/16"] "group1" none none none none
        (some (.vdict [])) (fun _ _ => .vdict []) true
        (vnetConverged "vnet1" ["10.0.0.0/16"] none none none none)
        (.vdict [])).1.result ≠ none :=
  ⟨rfl, fun h => Option.noConfusion h⟩

/-- C6 (amended): in test mode no "present" state function ever invokes the
create-or-update execution function; with a valid `connection_auth`,
`virtual_network_present` returns result `None` with the computed changes
when the diff finds differences (or the resource must be created) and
result `True` with empty changes when it finds none, and
`network_security_group_present` behaves the same whenever the
security-rules comparison collaborator reports no error comment. -/
theorem present_test_mode_no_mutation
    (name : String) (address_prefixes : List String) (resource_group : String)
    (dns_servers : Option (List String)) (tags security_rules : Option PyVal)
    (edp evp : Option Bool) (conn : Option PyVal) (ca : List (String × PyVal))
    (deepDiff compareListOfDicts : PyVal → PyVal → PyVal) (R createResult : PyVal) :
    (virtual_network_present name address_prefixes resource_group dns_servers tags
        edp evp conn deepDiff true R createResult).2 = false
    ∧ (network_security_group_present name resource_group tags security_rules conn
        deepDiff compareListOfDicts true R createResult).2 = false
    ∧ (((virtual_network_present name address_prefixes resource_group dns_servers tags
          edp evp (some (.vdict ca)) deepDiff true R createResult).1.changes = .vdict []
        → (virtual_network_present name address_prefixes resource_group dns_servers tags
            edp evp (some (.vdict ca)) deepDiff true R createResult).1.result = some true)
      ∧ ((virtual_network_present name address_prefixes resource_group dns_servers tags
          edp evp (some (.vdict ca)) deepDiff true R createResult).1.changes ≠ .vdict []
        → (virtual_network_present name address_prefixes resource_group dns_servers tags
            edp evp (some (.vdict ca)) deepDiff true R createResult).1.result = none))
    ∧ (pyTruthyOpt (dictGet (compareListOfDicts (pyGet R "security_rules" (.vlist []))
          (security_rules.getD .vnone)) "comment") = false
      → ((network_security_group_present name resource_group tags security_rules
            (some (.vdict ca)) deepDiff compareListOfDicts true R createResult).1.changes = .vdict []
          → (network_security_group_present name resource_group tags security_rules
              (some (.vdict ca)) deepDiff compareListOfDicts true R createResult).1.result = some true)
        ∧ ((network_security_group_present name resource_group tags security_rules
            (some (.vdict ca)) deepDiff compareListOfDicts true R createResult).1.changes ≠ .vdict []
          → (network_security_group_present name resource_group tags security_rules
              (some (.vdict ca)) deepDiff compareListOfDicts true R createResult).1.result = none)) := by
  refine ⟨?_, ?_, ?_, ?_⟩
  · rcases conn with _ | v
    · rfl
    · cases v <;> first
      | rfl
      | (cases hE : hasKey R "error" <;>
          cases hC : (vnetChanges address_prefixes dns_servers tags edp evp deepDiff R).isEmpty <;>
          simp [virtual_network_present, hE, hC])
  · rcases conn with _ | v
    · rfl
    · cases v <;> first
      | rfl
      | (cases hE : hasKey R "error" <;>
          cases hQ : (pyTruthyOpt security_rules && pyTruthyOpt (dictGet (compareListOfDicts
              (pyGet R "security_rules" (.vlist [])) (security_rules.getD .vnone)) "comment")) <;>
          cases hC : (nsgChanges tags security_rules deepDiff compareListOfDicts R).isEmpty <;>
          simp [network_security_group_present, hE, hQ, hC])
  · cases hE : hasKey R "error" with
    | false =>
      cases hC : (vnetChanges address_prefixes dns_servers tags edp evp deepDiff R).isEmpty with
      | false =>
        constructor
        · intro h
          exfalso
          have : (vnetChanges address_prefixes dns_servers tags edp evp deepDiff R) = [] := by
            have := h
            simp [virtual_network_present, hE, hC] at this
            exact this
          simp [this] at hC
        · intro _
          simp [virtual_network_present, hE, hC]
      | true =>
        constructor
        · intro _
          simp [virtual_network_present, hE, hC]
        · intro h
          exfalso
          apply h
          simp [virtual_network_present, hE, hC]
          exact List.isEmpty_iff.mp hC
    | true =>
      constructor
      · intro h
        exfalso
        simp [virtual_network_present, hE, vnetNewChanges] at h
      · intro _
        simp [virtual_network_present, hE]
  · intro hcm
    have hQ : (pyTruthyOpt security_rules && pyTruthyOpt (dictGet (compareListOfDicts
        (pyGet R "security_rules" (.vlist [])) (security_rules.getD .vnone)) "comment")) = false := by
      simp [hcm]
    cases hE : hasKey R "error" with
    | false =>
      cases hC : (nsgChanges tags security_rules deepDiff compareListOfDicts R).isEmpty with
      | false =>
        constructor
        · intro h
          exfalso
          have : (nsgChanges tags security_rules deepDiff compareListOfDicts R) = [] := by
            have := h
            simp [network_security_group_present, hE, hQ, hC] at this
            exact this
          simp [this] at hC
        · intro _
          simp [network_security_group_present, hE, hQ, hC]
      | true =>
        constructor
        · intro _
          simp [network_security_group_present, hE, hQ, hC]
        · intro h
          exfalso
          apply h
          simp [network_security_group_present, hE, hQ, hC]
          exact List.isEmpty_iff.mp hC
    | true =>
      constructor
      · intro h
        exfalso
        simp [network_security_group_present, hE, nsgNewChanges] at h
      · intro _
        simp [network_security_group_present, hE]

/-- Witness for `present_test_mode_no_mutation` at a concrete input (the
resource does not exist, so test mode reports the would-be creation). -/
theorem present_test_mode_no_mutation_witness :
    (virtual_network_present "vnet1" ["10.0.0.0/16"] "group1" none none
        none none (some (.vdict [])) (fun _ _ => .vdict []) true
        (.vdict [("error", .vstr "notfound")]) (.vdict [])).2 = false
    ∧ (network_security_group_present "vnet1" "group1" none none (some (.vdict []))
        (fun _ _ => .vdict []) (fun _ _ => .vdict []) true
        (.vdict [("error", .vstr "notfound")]) (.vdict [])).2 = false
    ∧ (((virtual_network_present "vnet1" ["10.0.0.0/16"] "group1" none none
          none none (some (.vdict [])) (fun _ _ => .vdict []) true
          (.vdict [("error", .vstr "notfound")]) (.vdict [])).1.changes = .vdict []
        → (virtual_network_present "vnet1" ["10.0.0.0/16"] "group1" none none
            none none (some (.vdict [])) (fun _ _ => .vdict []) true
            (.vdict [("error", .vstr "notfound")]) (.vdict [])).1.result = some true)
      ∧ ((virtual_network_present "vnet1" ["10.0.0.0/16"] "group1" none none
          none none (some (.vdict [])) (fun _ _ => .vdict []) true
          (.vdict [("error", .vstr "notfound")]) (.vdict [])).1.changes ≠ .vdict []
        → (virtual_network_present "vnet1" ["10.0.0.0/16"] "group1" none none
            none none (some (.vdict [])) (fun _ _ => .vdict []) true
            (.vdict [("error", .vstr "notfound")]) (.vdict [])).1.result = none))
    ∧ (pyTruthyOpt (dictGet ((fun (_ _ : PyVal) => PyVal.vdict [])
          (pyGet (.vdict [("error", .vstr "notfound")]) "security_rules" (.vlist []))
          ((none : Option PyVal).getD .vnone)) "comment") = false
      → ((network_security_group_present "vnet1" "group1" none none (some (.vdict []))
            (fun _ _ => .vdict []) (fun _ _ => .vdict []) true
            (.vdict [("error", .vstr "notfound")]) (.vdict [])).1.changes = .vdict []
          → (network_security_group_present "vnet1" "group1" none none (some (.vdict []))
              (fun _ _ => .vdict []) (fun _ _ => .vdict []) true
              (.vdict [("error", .vstr "notfound")]) (.vdict [])).1.result = some true)
        ∧ ((network_security_group_present "vnet1" "group1" none none (some (.vdict []))
            (fun _ _ => .vdict []) (fun _ _ => .vdict []) true
            (.vdict [("error", .vstr "notfound")]) (.vdict [])).1.changes ≠ .vdict []
          → (network_security_group_present "vnet1" "group1" none none (some (.vdict []))
              (fun _ _ => .vdict []) (fun _ _ => .vdict []) true
              (.vdict [("error", .vstr "notfound")]) (.vdict [])).1.result = none)) :=
  present_test_mode_no_mutation "vnet1" ["10.0.0.0/16"] "group1" none none none
    none none (some (.vdict [])) [] (fun _ _ => .vdict []) (fun _ _ => .vdict [])
    (.vdict [("error", .vstr "notfound")]) (.vdict [])

/-- C8: each execution function performs exactly one SDK operation per
invocation — whatever the outcome — with its keyword arguments mapped to
the documented SDK parameters: `check_dns_name_availability` passes
`region` as `location` and `name` as `domain_name_label`;
`security_rule_get` passes `security_group` as
`network_security_group_name`, `resource_group` as `resource_group_name`
and `security_rule` as `security_rule_name`. -/
theorem exec_single_sdk_call_mapped_args
    (name region security_rule security_group resource_group : String)
    (o o' : SDKOutcome) :
    (check_dns_name_availability name region o).2
      = [⟨"check_dns_name_availability",
          [("location", region), ("domain_name_label", name)]⟩]
    ∧ (security_rule_get security_rule security_group resource_group o').2
      = [⟨"security_rules.get",
          [("network_security_group_name", security_group),
           ("resource_group_name", resource_group),
           ("security_rule_name", security_rule)]⟩] :=
  ⟨rfl, rfl⟩

/-- Witness for `exec_single_sdk_call_mapped_args` at concrete inputs,
one per outcome kind. -/
theorem exec_single_sdk_call_mapped_args_witness :
    (check_dns_name_availability "testdnsname" "westus" (.ok (.vdict [("available", .vbool true)]))).2
      = [⟨"check_dns_name_availability",
          [("location", "westus"), ("domain_name_label", "testdnsname")]⟩]
    ∧ (security_rule_get "testrule1" "testnsg" "testgroup" (.cloudError "boom")).2
      = [⟨"security_rules.get",
          [("network_security_group_name", "testnsg"),
           ("resource_group_name", "testgroup"),
           ("security_rule_name", "testrule1")]⟩] :=
  exec_single_sdk_call_mapped_args "testdnsname" "westus" "testrule1" "testnsg" "testgroup"
    (.ok (.vdict [("available", .vbool true)])) (.cloudError "boom")

/-- C1 counterexample: `security_rule_delete` does not return
`{'error': str(exc)}` when the SDK raises `CloudError` — it returns the
boolean `False` (and `resource_group_check_existence` does the same). -/
theorem exec_cloud_error_counterexample :
    (security_rule_delete "testrule1" "testnsg" "testgroup" (.cloudError "boom")).1
      = .vbool false
    ∧ (security_rule_delete "testrule1" "testnsg" "testgroup" (.cloudError "boom")).1
      ≠ errDict "boom"
    ∧ (resource_group_check_existence "testgroup" (.cloudError "boom")).1 = .vbool false
    ∧ (resource_group_check_existence "testgroup" (.cloudError "boom")).1 ≠ errDict "boom" :=
  ⟨rfl, fun h => PyVal.noConfusion h, rfl, fun h => PyVal.noConfusion h⟩

/-- C1 (amended): when the SDK raises `CloudError`, every mapping-returning
execution function returns `{'error': str(exc)}` with the message verbatim
rather than raising, but the delete and check-existence functions instead
log the error and return the boolean `False`. -/
theorem exec_cloud_error_to_error_mapping
    (m name region security_rule security_group resource_group rgname : String)
    (a : SRArgs) (ha : exclusiveCheck a = true) :
    (check_dns_name_availability name region (.cloudError m)).1 = errDict m
    ∧ (security_rule_get security_rule security_group resource_group (.cloudError m)).1
      = errDict m
    ∧ (security_rules_list security_group resource_group (.cloudError m)).1 = errDict m
    ∧ (security_rule_create_or_update a none (.cloudError m)).result = errDict m
    ∧ (resource_groups_list (.cloudError m)).1 = some (errDict m)
    ∧ (security_rule_delete security_rule security_group resource_group (.cloudError m)).1
      = .vbool false
    ∧ (resource_group_check_existence rgname (.cloudError m)).1 = .vbool false := by
  refine ⟨rfl, rfl, rfl, ?_, rfl, rfl, rfl⟩
  simp [security_rule_create_or_update, ha]

/-- Witness for `exec_cloud_error_to_error_mapping` at concrete inputs,
discharging the exclusive-pair hypothesis on `srArgs0`. -/
theorem exec_cloud_error_to_error_mapping_witness :
    (check_dns_name_availability "testdnsname" "westus" (.cloudError "quota exceeded")).1
      = errDict "quota exceeded"
    ∧ (security_rule_get "testrule1" "testnsg" "testgroup" (.cloudError "quota exceeded")).1
      = errDict "quota exceeded"
    ∧ (security_rules_list "testnsg" "testgroup" (.cloudError "quota exceeded")).1
      = errDict "quota exceeded"
    ∧ (security_rule_create_or_update srArgs0 none (.cloudError "quota exceeded")).result
      = errDict "quota exceeded"
    ∧ (resource_groups_list (.cloudError "quota exceeded")).1 = some (errDict "quota exceeded")
    ∧ (security_rule_delete "testrule1" "testnsg" "testgroup" (.cloudError "quota exceeded")).1
      = .vbool false
    ∧ (resource_group_check_existence "testgroup" (.cloudError "quota exceeded")).1
      = .vbool false :=
  exec_cloud_error_to_error_mapping "quota exceeded" "testdnsname" "westus"
    "testrule1" "testnsg" "testgroup" "testgroup" srArgs0 rfl

/-- C3 counterexample: on a successful SDK outcome `security_rules_list`
returns a Python list (of rule mappings), which is neither a mapping nor a
boolean — the command surface does not return only mappings, booleans and
error mappings. -/
theorem command_surface_shape_counterexample :
    (security_rules_list "testnsg" "testgroup"
        (.ok (.vlist [.vdict [("name", .vstr "testrule1")]]))).1
      = .vlist [.vdict [("name", .vstr "testrule1")]]
    ∧ claimedShape (security_rules_list "testnsg" "testgroup"
        (.ok (.vlist [.vdict [("name", .vstr "testrule1")]]))).1 = false :=
  ⟨rfl, rfl⟩

/-- C3 (amended): each callable on the command surface returns a plain
mapping, a list of mappings, a boolean, or an `{'error': str}` mapping:
`security_rules_list` returns a list on success and an error mapping on
`CloudError`; `resource_groups_list` returns a mapping in both cases
(provided every listed group carries a name, as the SDK guarantees);
`security_rule_delete` always returns a boolean. -/
theorem command_surface_shapes
    (security_rule security_group resource_group m : String)
    (l groups : List PyVal) (d : List (String × PyVal)) (o : SDKOutcome)
    (hidx : rgIndex groups = some d) :
    isListV (security_rules_list security_group resource_group (.ok (.vlist l))).1 = true
    ∧ isMapping (security_rules_list security_group resource_group (.cloudError m)).1 = true
    ∧ (resource_groups_list (.ok (.vlist groups))).1 = some (.vdict d)
    ∧ isMapping (.vdict d) = true
    ∧ (resource_groups_list (.cloudError m)).1 = some (errDict m)
    ∧ isBoolV (security_rule_delete security_rule security_group resource_group o).1 = true := by
  refine ⟨rfl, rfl, ?_, rfl, rfl, ?_⟩
  · simp [resource_groups_list, hidx]
  · cases o <;> rfl

/-- Witness for `command_surface_shapes` at concrete inputs. -/
theorem command_surface_shapes_witness :
    isListV (security_rules_list "testnsg" "testgroup"
        (.ok (.vlist [.vdict [("name", .vstr "r1")]]))).1 = true
    ∧ isMapping (security_rules_list "testnsg" "testgroup" (.cloudError "denied")).1 = true
    ∧ (resource_groups_list (.ok (.vlist [.vdict [("name", .vstr "testgroup")]]))).1
      = some (.vdict [("testgroup", .vdict [("name", .vstr "testgroup")])])
    ∧ isMapping (.vdict [("testgroup", .vdict [("name", .vstr "testgroup")])]) = true
    ∧ (resource_groups_list (.cloudError "denied")).1 = some (errDict "denied")
    ∧ isBoolV (security_rule_delete "r1" "testnsg" "testgroup" (.ok (.vdict []))).1 = true :=
  command_surface_shapes "r1" "testnsg" "testgroup" "denied"
    [.vdict [("name", .vstr "r1")]] [.vdict [("name", .vstr "testgroup")]]
    [("testgroup", .vdict [("name", .vstr "testgroup")])] (.ok (.vdict [])) rfl

/-- C4 counterexample: more than the two claimed error kinds are converted
into `{'error': ...}` results — `security_rule_create_or_update` converts
the SDK's `SerializationError` into an error mapping, and
`default_security_rules_list` converts a `KeyError` on a missing
`default_security_rules` key into an error mapping. -/
theorem error_kinds_counterexample :
    (security_rule_create_or_update srArgs0 none (.serializationError "boom")).result
      = errDict "The object model could not be parsed. (boom)"
    ∧ default_security_rules_list (.vdict [("name", .vstr "testnsg")])
      = errDict "'default_security_rules'" :=
  ⟨rfl, rfl⟩

/-- C4 (amended): the handled error kinds are: (a) provider rejection
(`CloudError`) returned as `{'error': str(exc)}` and never raised further;
(b) request-object construction failing with `TypeError`, returned the
same way; and additionally (c) `SerializationError` from the SDK call in
the create-or-update functions and (d) `KeyError` on missing keys in the
default-security-rules helpers, both also converted into `{'error': ...}`
results. -/
theorem error_kind_conversions
    (a : SRArgs) (m : String) (d : PyVal) (sg : List (String × PyVal))
    (ha : exclusiveCheck a = true)
    (hsg : hasKey (.vdict sg) "error" = false)
    (hmiss : dictGet (.vdict sg) "default_security_rules" = none) :
    (security_rule_create_or_update a (some m) (.ok d)).result
      = errDict ("The object model could not be built. (" ++ m ++ ")")
    ∧ (security_rule_create_or_update a none (.cloudError m)).result = errDict m
    ∧ (security_rule_create_or_update a none (.serializationError m)).result
      = errDict ("The object model could not be parsed. (" ++ m ++ ")")
    ∧ (security_rule_create_or_update a none (.ok d)).result = d
    ∧ default_security_rules_list (.vdict sg) = errDict "'default_security_rules'" := by
  refine ⟨?_, ?_, ?_, ?_, ?_⟩
  · simp [security_rule_create_or_update, ha]
  · simp [security_rule_create_or_update, ha]
  · simp [security_rule_create_or_update, ha]
  · simp [security_rule_create_or_update, ha]
  · simp [default_security_rules_list, hsg, hmiss]

/-- Witness for `error_kind_conversions` at concrete inputs. -/
theorem error_kind_conversions_witness :
    (security_rule_create_or_update srArgs0 (some "denied") (.ok (.vdict []))).result
      = errDict "The object model could not be built. (denied)"
    ∧ (security_rule_create_or_update srArgs0 none (.cloudError "denied")).result = errDict "denied"
    ∧ (security_rule_create_or_update srArgs0 none (.serializationError "denied")).result
      = errDict "The object model could not be parsed. (denied)"
    ∧ (security_rule_create_or_update srArgs0 none (.ok (.vdict []))).result = .vdict []
    ∧ default_security_rules_list (.vdict [("name", .vstr "testnsg2")])
      = errDict "'default_security_rules'" :=
  error_kind_conversions srArgs0 "denied" (.vdict []) [("name", .vstr "testnsg2")]
    rfl rfl rfl

/-- C10: in `security_rule_create_or_update`, when a plural parameter is
given together with its singular counterpart, the `exec`-based clearing of
the singular local has no effect under Python 3 scoping, so both values —
the plural and the original singular, not `None` — are forwarded to the
`SecurityRule` object-model builder; and when neither member of an
exclusive pair is provided, the function returns the boolean `False`
rather than an `{'error': ...}` mapping. -/
theorem security_rule_exclusive_pair_semantics
    (a : SRArgs) (b : Option String) (o : CreateOutcome)
    (prl : List String) (sv : String)
    (a' : SRArgs) (b' : Option String) (o' : CreateOutcome)
    (hp : a.source_port_ranges = some prl) (hs : a.source_port_range = some sv)
    (hx : exclusiveCheck a = true)
    (h1 : truthyL a'.source_port_ranges = false)
    (h2 : truthyS a'.source_port_range = false) :
    ((security_rule_create_or_update a b o).modelCall = some (srModelArgs a)
      ∧ (srModelArgs a).source_port_ranges = some prl
      ∧ (srModelArgs a).source_port_range = some sv)
    ∧ security_rule_create_or_update a' b' o'
      = ⟨.vbool false, none, false⟩ := by
  constructor
  · refine ⟨?_, by simp [srModelArgs, hp], by simp [srModelArgs, hs]⟩
    cases b <;> simp [security_rule_create_or_update, hx]
  · have hx' : exclusiveCheck a' = false := by
      simp [exclusiveCheck, h1, h2]
    simp [security_rule_create_or_update, hx']

/-- Witness for `security_rule_exclusive_pair_semantics`: `srArgs0` has
both `source_port_ranges` and `source_port_range` provided, and a record
with neither member of the first pair reaches the early `False` return. -/
theorem security_rule_exclusive_pair_semantics_witness :
    ((security_rule_create_or_update srArgs0 none (.ok (.vdict []))).modelCall
        = some (srModelArgs srArgs0)
      ∧ (srModelArgs srArgs0).source_port_ranges = some ["100-200"]
      ∧ (srModelArgs srArgs0).source_port_range = some "80")
    ∧ security_rule_create_or_update
        { name := "testrule1", access := "allow", direction := "outbound",
          priority := 101, protocol := "tcp",
          security_group := "testnsg", resource_group := "testgroup" }
        none (.ok (.vdict []))
      = ⟨.vbool false, none, false⟩ :=
  security_rule_exclusive_pair_semantics srArgs0 none (.ok (.vdict [])) ["100-200"] "80"
    { name := "testrule1", access := "allow", direction := "outbound",
      priority := 101, protocol := "tcp",
      security_group := "testnsg", resource_group := "testgroup" }
    none (.ok (.vdict [])) rfl rfl rfl rfl rfl
